import Mathlib

/-!
# OrbPonderingSimulator — economy core, shallow embedding

A shallow embedding in Lean 4 of the progression/economy engine of the
OrbPonderingSimulator repository (Rust/Bevy).  Floating-point numbers
(`f32`/`f64`) are modelled as rationals `ℚ`; machine integers (`u32`/`u64`)
as `ℕ`.  Bevy `Timer`s and randomness are external to the economy math and
are omitted from the state records.  Every definition is translated from the
corresponding Rust item in `src/gameplay/`, except where a doc comment says
`Modelled from the spec:` (code referenced by the repository but absent from
the source tree).
-/

namespace Orb

/-! ## Generator types (src/gameplay/generators.rs) -/

/-- The closed enumeration of 8 generator tiers (`GeneratorType`). -/
inductive GeneratorType where
  | Candle
  | CrystalBall
  | AncientTome
  | LeyLineTap
  | AstralMirror
  | DreamLoom
  | VoidGate
  | CosmicEye
deriving DecidableEq, Repr, Fintype

namespace GeneratorType

/-- `GeneratorType::ALL`. -/
def all : List GeneratorType :=
  [Candle, CrystalBall, AncientTome, LeyLineTap, AstralMirror, DreamLoom, VoidGate, CosmicEye]

/-- The `as usize` index of a generator type (discriminant order). -/
def index : GeneratorType → Fin 8
  | Candle => 0
  | CrystalBall => 1
  | AncientTome => 2
  | LeyLineTap => 3
  | AstralMirror => 4
  | DreamLoom => 5
  | VoidGate => 6
  | CosmicEye => 7

/-- `GeneratorType::base_cost`. -/
def base_cost : GeneratorType → ℕ
  | Candle => 50
  | CrystalBall => 500
  | AncientTome => 5000
  | LeyLineTap => 50000
  | AstralMirror => 500000
  | DreamLoom => 5000000
  | VoidGate => 50000000
  | CosmicEye => 500000000

/-- `GeneratorType::base_production` (wisdom/sec per unit). -/
def base_production : GeneratorType → ℚ
  | Candle => 1/10
  | CrystalBall => 1
  | AncientTome => 8
  | LeyLineTap => 47
  | AstralMirror => 260
  | DreamLoom => 1400
  | VoidGate => 7800
  | CosmicEye => 44000

/-- `GeneratorType::cost_growth` — fixed 1.15 for every tier. -/
def cost_growth (_ : GeneratorType) : ℚ := 115/100

/-- `GeneratorType::next_cost_discounted`: cost of the next unit given the
current owned count and a discount, `ceil`ed and floored at 1. -/
def next_cost_discounted (g : GeneratorType) (owned : ℕ) (discount : ℚ) : ℤ :=
  max 1 ⌈(g.base_cost : ℚ) * g.cost_growth ^ owned * (1 - discount)⌉

/-- `GeneratorType::production`: total base production of `owned` units. -/
def production (g : GeneratorType) (owned : ℕ) : ℚ :=
  g.base_production * owned

/-- `GeneratorType::unlock_threshold`. -/
def unlock_threshold : GeneratorType → ℕ
  | Candle => 0
  | CrystalBall => 3
  | AncientTome => 10
  | LeyLineTap => 25
  | AstralMirror => 50
  | DreamLoom => 100
  | VoidGate => 200
  | CosmicEye => 400

end GeneratorType

/-- Base production looked up by array index, as in the per-index table
inside `calculate_offline_gains` (src/gameplay/persistence.rs). -/
def base_prod_at (i : Fin 8) : ℚ :=
  match i with
  | 0 => 1/10
  | 1 => 1
  | 2 => 8
  | 3 => 47
  | 4 => 260
  | 5 => 1400
  | 6 => 7800
  | 7 => 44000

/-! ## Generator state -/

/-- `GeneratorState { owned: [u32; 8] }`. -/
structure GeneratorState where
  owned : Fin 8 → ℕ
deriving DecidableEq

/-- `GeneratorState::count`. -/
def GeneratorState.count (s : GeneratorState) (g : GeneratorType) : ℕ :=
  s.owned g.index

/-- `GeneratorState::total_base_production`. -/
def GeneratorState.total_base_production (s : GeneratorState) : ℚ :=
  (GeneratorType.all.map (fun g => g.production (s.owned g.index))).sum

/-! ## Synergies and milestones (src/gameplay/synergies.rs) -/

/-- One `SynergyLink { source, target, bonus_per_unit }`. -/
structure SynergyLink where
  source : GeneratorType
  target : GeneratorType
  bonus_per_unit : ℚ

/-- `SYNERGY_TABLE`: adjacent-tier pairs (+2% each way) and skip-tier
links (+1% one way). -/
def SYNERGY_TABLE : List SynergyLink :=
  [ ⟨.Candle, .CrystalBall, 2/100⟩
  , ⟨.CrystalBall, .Candle, 2/100⟩
  , ⟨.CrystalBall, .AncientTome, 2/100⟩
  , ⟨.AncientTome, .CrystalBall, 2/100⟩
  , ⟨.AncientTome, .LeyLineTap, 2/100⟩
  , ⟨.LeyLineTap, .AncientTome, 2/100⟩
  , ⟨.LeyLineTap, .AstralMirror, 2/100⟩
  , ⟨.AstralMirror, .LeyLineTap, 2/100⟩
  , ⟨.AstralMirror, .DreamLoom, 2/100⟩
  , ⟨.DreamLoom, .AstralMirror, 2/100⟩
  , ⟨.DreamLoom, .VoidGate, 2/100⟩
  , ⟨.VoidGate, .DreamLoom, 2/100⟩
  , ⟨.VoidGate, .CosmicEye, 2/100⟩
  , ⟨.CosmicEye, .VoidGate, 2/100⟩
  , ⟨.Candle, .AncientTome, 1/100⟩
  , ⟨.CrystalBall, .AstralMirror, 1/100⟩
  , ⟨.LeyLineTap, .VoidGate, 1/100⟩
  , ⟨.DreamLoom, .CosmicEye, 1/100⟩
  ]

/-- `MILESTONES`: (owned count, production multiplier) breakpoints. -/
def MILESTONES : List (ℕ × ℚ) := [(5, 3/2), (10, 2), (25, 3), (50, 5)]

/-- The loop body of `milestone_multiplier`: scan breakpoints in order,
keep the multiplier of each satisfied breakpoint, stop (`break`) at the
first unmet one. -/
def milestoneScan : List (ℕ × ℚ) → ℕ → ℚ → ℚ
  | [], _, mult => mult
  | (threshold, m) :: rest, owned, mult =>
      if threshold ≤ owned then milestoneScan rest owned m else mult

/-- `milestone_multiplier` (src/gameplay/synergies.rs). -/
def milestone_multiplier (owned : ℕ) : ℚ :=
  milestoneScan MILESTONES owned 1

/-- `SynergyState`: cached per-generator synergy and milestone multipliers. -/
structure SynergyState where
  synergy_mult : Fin 8 → ℚ
  milestone_mult : Fin 8 → ℚ
deriving DecidableEq

/-- `SynergyState::default()`: all multipliers 1.0. -/
def SynergyState.default : SynergyState :=
  { synergy_mult := fun _ => 1, milestone_mult := fun _ => 1 }

/-- Body of `recalculate_synergies` / `SynergyState::recalculate`: reset to
1.0, add each synergy link's contribution, recompute milestones. -/
def SynergyState.recalculate (generators : GeneratorState) : SynergyState :=
  { synergy_mult := fun i =>
      1 + ((SYNERGY_TABLE.filter (fun l => l.target.index = i)).map
        (fun l => l.bonus_per_unit * (generators.count l.source : ℚ))).sum
    milestone_mult := fun i =>
      milestone_multiplier (generators.owned i) }

/-- `SynergyState::total_mult`. -/
def SynergyState.total_mult (s : SynergyState) (g : GeneratorType) : ℚ :=
  s.synergy_mult g.index * s.milestone_mult g.index

/-- `SynergyState::total_synergized_production`. -/
def SynergyState.total_synergized_production
    (s : SynergyState) (generators : GeneratorState) : ℚ :=
  (GeneratorType.all.map (fun g =>
    g.base_production * (generators.owned g.index : ℚ)
      * s.synergy_mult g.index * s.milestone_mult g.index)).sum

/-! ## Game state machine (src/gameplay/state.rs) -/

/-- `GameState` (Bevy `States`). -/
inductive GameState where
  | Playing
  | Paused
  | LogbookOpen
  | ShopOpen
  | TranscendenceOpen
  | SchoolSelection
  | AchievementsOpen
  | ChallengesOpen
deriving DecidableEq, Repr

/-! ## Orb types (src/orb/types.rs) -/

/-- `OrbType`. -/
inductive OrbType where
  | Crystal
  | Obsidian
  | Mercury
  | Galaxy
deriving DecidableEq, Repr

/-! ## Shop (src/gameplay/shop.rs) -/

/-- `ShopItemId`. -/
inductive ShopItemId where
  | ArcaneBiscuit
  | VoidTea
  | CosmicPretzel
  | GlowingBerries
  | FocusedMind
  | DeepContemplation
  | ArcaneAmplifier
  | CrystalResonance
  | GentleScaling
  | ObsidianOrb
  | MercuryOrb
  | GalaxyOrb
deriving DecidableEq, Repr, Fintype

/-- `PurchaseTracker`: the owned one-time shop upgrades plus the derived
aggregate bonuses.  The Rust `HashSet<ShopItemId>` is modelled as a
`Finset` (iteration order is irrelevant: the recalculation only performs
commutative sums and membership-determined assignments). -/
structure PurchaseTracker where
  purchased : Finset ShopItemId
  efficiency_bonus : ℚ
  wisdom_speed_bonus : ℚ
  afp_bonus : ℕ
  scaling_factor : ℚ
deriving DecidableEq

/-- `PurchaseTracker::default()`. -/
def PurchaseTracker.default : PurchaseTracker :=
  { purchased := ∅
    efficiency_bonus := 0
    wisdom_speed_bonus := 1
    afp_bonus := 0
    scaling_factor := 11/10 }

/-- Per-item efficiency contribution in `PurchaseTracker::recalculate`. -/
def itemEfficiency : ShopItemId → ℚ
  | .ArcaneBiscuit => 1/10
  | .VoidTea => 25/100
  | .CosmicPretzel => 1/2
  | .GlowingBerries => 1
  | _ => 0

/-- Per-item wisdom-speed contribution in `PurchaseTracker::recalculate`. -/
def itemSpeed : ShopItemId → ℚ
  | .FocusedMind => 2/10
  | .DeepContemplation => 1/2
  | _ => 0

/-- Per-item AFP contribution in `PurchaseTracker::recalculate`. -/
def itemAfp : ShopItemId → ℕ
  | .ArcaneAmplifier => 5
  | .CrystalResonance => 10
  | _ => 0

/-- `PurchaseTracker::recalculate(equipped)`: rebuild every aggregate bonus
from scratch out of the purchased set, then apply the equipped orb's
bonuses. -/
def PurchaseTracker.recalculate (purchased : Finset ShopItemId) (equipped : OrbType) :
    PurchaseTracker :=
  let eff := purchased.sum itemEfficiency
  let speed := 1 + purchased.sum itemSpeed
  let afp := purchased.sum itemAfp
  let scaling : ℚ := if ShopItemId.GentleScaling ∈ purchased then 107/100 else 11/10
  { purchased := purchased
    efficiency_bonus := eff + (if equipped = .Obsidian then 3/10 else 0)
    wisdom_speed_bonus := speed + (if equipped = .Mercury then 4/10 else 0)
    afp_bonus := afp + (if equipped = .Obsidian then 5 else 0)
    scaling_factor := scaling - (if equipped = .Galaxy then 3/100 else 0) }

/-! ## Moments of clarity (src/gameplay/moments.rs) -/

/-- `MomentEffect`. -/
inductive MomentEffect where
  | WisdomBurst
  | WisdomMultiplier
  | AfpBonus
  | ClickFrenzy
deriving DecidableEq, Repr

/-- `ActiveBuff` (the Bevy duration `Timer` is external and omitted). -/
structure ActiveBuff where
  effect : MomentEffect
deriving DecidableEq

/-- `MomentState` restricted to its economy-relevant field: the active
buff (spawn timer and pending moment drive UI/RNG only). -/
structure MomentState where
  active_buff : Option ActiveBuff
deriving DecidableEq

/-- `MomentState::wisdom_multiplier`. -/
def MomentState.wisdom_multiplier (s : MomentState) : ℚ :=
  match s.active_buff with
  | some b => if b.effect = .WisdomMultiplier then 2 else 1
  | none => 1

/-- `MomentState::click_multiplier`. -/
def MomentState.click_multiplier (s : MomentState) : ℚ :=
  match s.active_buff with
  | some b => if b.effect = .ClickFrenzy then 3 else 1
  | none => 1

/-! ## Transcendence (src/gameplay/transcendence.rs) -/

/-- `EnlightenmentId`. -/
inductive EnlightenmentId where
  | DeepRoots
  | EternalFlow
  | HeadStart
  | CosmicResonance
  | ArcaneInheritance
  | ClarityAffinity
  | Transcendent
  | EfficientDesign
deriving DecidableEq, Repr

/-- `TranscendenceState`. -/
structure TranscendenceState where
  insight : ℕ
  total_transcendences : ℕ
  purchased_enlightenments : List EnlightenmentId
  run_wisdom_accumulated : ℚ
deriving DecidableEq

/-- `TranscendenceState::default()`. -/
def TranscendenceState.default : TranscendenceState :=
  { insight := 0
    total_transcendences := 0
    purchased_enlightenments := []
    run_wisdom_accumulated := 0 }

namespace TranscendenceState

/-- `TranscendenceState::has`. -/
def has (t : TranscendenceState) (id : EnlightenmentId) : Bool :=
  t.purchased_enlightenments.contains id

/-- `TranscendenceState::pending_insight`:
`(run_wisdom_accumulated / 1000.0).sqrt().floor() as u32`.
For a nonnegative rational `q`, `⌊Real.sqrt q⌋ = Nat.sqrt ⌊q⌋`, which is the
executable form used here (proved against `Real.sqrt` below). -/
def pending_insight (t : TranscendenceState) : ℕ :=
  Nat.sqrt ⌊t.run_wisdom_accumulated / 1000⌋₊

/-- `TranscendenceState::click_multiplier`. -/
def click_multiplier (t : TranscendenceState) : ℚ :=
  1 + (if t.has .DeepRoots then 1/10 else 0)
    + (if t.has .Transcendent then 1 else 0)

/-- `TranscendenceState::passive_multiplier`. -/
def passive_multiplier (t : TranscendenceState) : ℚ :=
  1 + (if t.has .EternalFlow then 25/100 else 0)
    + (if t.has .CosmicResonance then 1/2 else 0)
    + (if t.has .Transcendent then 1 else 0)

/-- `TranscendenceState::starting_afp`. -/
def starting_afp (t : TranscendenceState) : ℕ :=
  (if t.has .HeadStart then 50 else 0) + (if t.has .ArcaneInheritance then 200 else 0)

/-- `TranscendenceState::generator_cost_discount`. -/
def generator_cost_discount (t : TranscendenceState) : ℚ :=
  if t.has .EfficientDesign then 1/10 else 0

end TranscendenceState

/-! ## Schools of thought (src/gameplay/schools.rs) -/

/-- `SchoolOfThought`. -/
inductive SchoolOfThought where
  | NoSchool
  | Stoicism
  | Mysticism
  | Empiricism
  | Nihilism
deriving DecidableEq, Repr

/-- `SchoolState`. -/
structure SchoolState where
  active : SchoolOfThought
  run_truths : ℕ
deriving DecidableEq

namespace SchoolState

/-- `SchoolState::click_multiplier`. -/
def click_multiplier (s : SchoolState) : ℚ :=
  match s.active with
  | .Empiricism => 175/100
  | _ => 1

/-- `SchoolState::passive_multiplier`. -/
def passive_multiplier (s : SchoolState) : ℚ :=
  match s.active with
  | .Stoicism => 3/2
  | .Nihilism => 1/2 + (5/100) * s.run_truths
  | _ => 1

/-- `SchoolState::scaling_override`. -/
def scaling_override (s : SchoolState) : Option ℚ :=
  match s.active with
  | .Stoicism => some (107/100)
  | _ => none

end SchoolState

/-! ## Achievements (src/gameplay/achievements.rs) -/

/-- `AchievementId` (23 achievements). -/
inductive AchievementId where
  | FirstTruth | TenTruths | FiftyTruths | HundredTruths | FiveHundredTruths | ThousandTruths
  | HundredAfp | ThousandAfp | HundredKAfp | MillionAfp
  | FirstTranscendence | FiveTranscendences | TenTranscendences
  | FirstGenerator | AllGeneratorTypes | FiftyCandles | HundredGenerators
  | FirstAcolyte | TenAcolytes | TwentyFiveAcolytes
  | SpeedPonderer | DeepThinker | TruthSeeker
deriving DecidableEq, Repr

/-- `AchievementId::reward_multiplier` (additive permanent wisdom bonus). -/
def AchievementId.reward_multiplier : AchievementId → ℚ
  | .FirstTruth => 1/100
  | .TenTruths => 2/100
  | .FiftyTruths => 3/100
  | .HundredTruths => 5/100
  | .FiveHundredTruths => 8/100
  | .ThousandTruths => 12/100
  | .HundredAfp => 1/100
  | .ThousandAfp => 2/100
  | .HundredKAfp => 5/100
  | .MillionAfp => 10/100
  | .FirstTranscendence => 5/100
  | .FiveTranscendences => 8/100
  | .TenTranscendences => 12/100
  | .FirstGenerator => 1/100
  | .AllGeneratorTypes => 10/100
  | .FiftyCandles => 3/100
  | .HundredGenerators => 5/100
  | .FirstAcolyte => 1/100
  | .TenAcolytes => 3/100
  | .TwentyFiveAcolytes => 5/100
  | .SpeedPonderer => 5/100
  | .DeepThinker => 4/100
  | .TruthSeeker => 6/100

/-- `AchievementTracker`. -/
structure AchievementTracker where
  unlocked : List AchievementId
  lifetime_truths : ℕ
  peak_afp : ℕ
  deep_focus_uses : ℕ
  run_elapsed : ℚ
  run_truths : ℕ
  notification_queue : List AchievementId
deriving DecidableEq

/-- `AchievementTracker::default()`. -/
def AchievementTracker.default : AchievementTracker :=
  { unlocked := [], lifetime_truths := 0, peak_afp := 0, deep_focus_uses := 0
    run_elapsed := 0, run_truths := 0, notification_queue := [] }

/-- `AchievementTracker::wisdom_multiplier`. -/
def AchievementTracker.wisdom_multiplier (t : AchievementTracker) : ℚ :=
  1 + (t.unlocked.map AchievementId.reward_multiplier).sum

/-! ## Challenges (src/gameplay/challenges.rs) -/

/-- `ChallengeId`. -/
inductive ChallengeId where
  | Silence
  | Blindfold
  | Austerity
  | Solitude
deriving DecidableEq, Repr

/-- `ChallengeId::required_duration` (seconds; `None` for goal-based). -/
def ChallengeId.required_duration : ChallengeId → Option ℚ
  | .Silence => some 600
  | .Blindfold => some 300
  | .Austerity => some 900
  | .Solitude => none

/-- `ActiveChallenge`. -/
structure ActiveChallenge where
  id : ChallengeId
  elapsed : ℚ
  failed : Bool
  progress : ℕ
deriving DecidableEq

/-- `ChallengeState`. -/
structure ChallengeState where
  completed : List ChallengeId
  active : Option ActiveChallenge
deriving DecidableEq

namespace ChallengeState

/-- `ChallengeState::default()`. -/
def default : ChallengeState := { completed := [], active := none }

/-- `ChallengeState::has_completed`. -/
def has_completed (s : ChallengeState) (id : ChallengeId) : Bool :=
  s.completed.contains id

/-- `ChallengeState::is_active`. -/
def is_active (s : ChallengeState) : Bool :=
  s.active.isSome

/-- `ChallengeState::passive_multiplier`. -/
def passive_multiplier (s : ChallengeState) : ℚ :=
  1 + (if s.has_completed .Silence then 5/100 else 0)
    + (if s.has_completed .Blindfold then 10/100 else 0)

/-- `ChallengeState::click_multiplier`. -/
def click_multiplier (s : ChallengeState) : ℚ :=
  1 + (if s.has_completed .Austerity then 8/100 else 0)

/-- `ChallengeState::afp_multiplier`. -/
def afp_multiplier (s : ChallengeState) : ℚ :=
  if s.has_completed .Solitude then 105/100 else 1

end ChallengeState

/-! ## Secondary resources (src/gameplay/resources.rs) -/

/-- `SecondaryResources`. -/
structure SecondaryResources where
  serenity : ℚ
  curiosity : ℚ
  focus : ℚ
  focus_max : ℚ
  focus_active : Bool
  focus_drain_rate : ℚ
  focus_regen_rate : ℚ
  focus_multiplier : ℚ
deriving DecidableEq

/-- `SecondaryResources::default()`. -/
def SecondaryResources.default : SecondaryResources :=
  { serenity := 0, curiosity := 0, focus := 0, focus_max := 100
    focus_active := false, focus_drain_rate := 2, focus_regen_rate := 1/10
    focus_multiplier := 3/2 }

/-- `SecondaryResources::focus_mult` (and `focus_mult_f64`). -/
def SecondaryResources.focus_mult (r : SecondaryResources) : ℚ :=
  if r.focus_active then r.focus_multiplier else 1

/-! ## Acolytes (src/gameplay/acolytes.rs) -/

/-- `AcolyteState`. -/
structure AcolyteState where
  count : ℕ
  base_rate : ℚ
  base_cost : ℕ
  cost_growth : ℚ
deriving DecidableEq

/-- `AcolyteState::default()`. -/
def AcolyteState.default : AcolyteState :=
  { count := 0, base_rate := 2/10, base_cost := 20, cost_growth := 115/100 }

/-- `AcolyteState::passive_rate`. -/
def AcolyteState.passive_rate (a : AcolyteState) : ℚ :=
  (a.count : ℚ) * a.base_rate

/-! ## Pondering (src/gameplay/pondering.rs) -/

/-- `PonderState`. -/
structure PonderState where
  ponder_intensity : ℚ
  deep_focus_active : Bool
  deep_focus_timer : ℚ
  deep_focus_cooldown : ℚ
deriving DecidableEq

/-! ## Arcane progress (src/gameplay/progression.rs) -/

/-- `ArcaneProgress`. -/
structure ArcaneProgress where
  focus_points : ℕ
  total_truths : ℕ
  unlocked_orbs : List OrbType
deriving DecidableEq

/-- `ArcaneProgress::default()` — the starter Crystal orb is unlocked. -/
def ArcaneProgress.default : ArcaneProgress :=
  { focus_points := 0, total_truths := 0, unlocked_orbs := [.Crystal] }

/-! ## Shadow thoughts (src/gameplay/shadow_thoughts.rs) -/

/-- `ShadowState` restricted to its persisted/economy fields (the spawn
`Timer` is external). -/
structure ShadowState where
  count : ℕ
  max_shadows : ℕ
  stored_wisdom : ℚ
  drain_per_shadow : ℚ
  dispel_multiplier : ℚ
deriving DecidableEq

/-! ## Wisdom meter (src/gameplay/wisdom.rs — module referenced by
`gameplay/mod.rs` but absent from the source tree) -/

/-- Modelled from the spec: `WisdomMeter { current, max_wisdom,
truths_generated }` of §3 — the file `src/gameplay/wisdom.rs` that declares
it is missing from the tree (only its callers are present). -/
structure WisdomMeter where
  current : ℚ
  max_wisdom : ℚ
  truths_generated : ℕ
deriving DecidableEq

/-- Modelled from the spec: one truth-generation resolution step of §4.3,
implemented by the missing `check_truth_generation` in
`src/gameplay/wisdom.rs`.  If `current ≥ max_wisdom`, decrement `current`
by the pre-transition `max_wisdom` (overflow preserved), increment
`truths_generated`, and multiply `max_wisdom` by the active scaling
factor; otherwise do nothing. -/
def WisdomMeter.resolveStep (w : WisdomMeter) (scaling : ℚ) : WisdomMeter :=
  if w.max_wisdom ≤ w.current then
    { current := w.current - w.max_wisdom
      max_wisdom := w.max_wisdom * scaling
      truths_generated := w.truths_generated + 1 }
  else
    w

/-! ## Production paths -/

/-- The wisdom granted by one click in `handle_click_ponder`
(src/gameplay/pondering.rs): the product of the deep-focus, moment,
enlightenment, school, achievement, challenge and focus multipliers over
a base of 1.0 with the purchase-tracker bonuses. -/
def click_gain (tracker : PurchaseTracker) (ponder : PonderState)
    (moments : MomentState) (transcendence : TranscendenceState)
    (school : SchoolState) (achievements : AchievementTracker)
    (challenges : ChallengeState) (resources : SecondaryResources) : ℚ :=
  let deep_focus_mult : ℚ := if ponder.deep_focus_active then 3 else 1
  1 * (1 + tracker.efficiency_bonus)
    * tracker.wisdom_speed_bonus
    * deep_focus_mult
    * moments.click_multiplier
    * transcendence.click_multiplier
    * school.click_multiplier
    * achievements.wisdom_multiplier
    * challenges.click_multiplier
    * resources.focus_mult

/-- The per-second rate granted by `passive_wisdom`
(src/gameplay/acolytes.rs); the system early-returns when
`acolytes.count == 0`, contributing rate 0. -/
def acolyte_passive_rate (acolytes : AcolyteState) (tracker : PurchaseTracker)
    (moments : MomentState) (transcendence : TranscendenceState)
    (school : SchoolState) (achievements : AchievementTracker)
    (challenges : ChallengeState) (resources : SecondaryResources) : ℚ :=
  if acolytes.count = 0 then 0
  else
    acolytes.passive_rate
      * (1 + tracker.efficiency_bonus)
      * tracker.wisdom_speed_bonus
      * moments.wisdom_multiplier
      * transcendence.passive_multiplier
      * school.passive_multiplier
      * achievements.wisdom_multiplier
      * challenges.passive_multiplier
      * resources.focus_mult

/-- The per-second rate granted by `passive_generator_wisdom`
(src/gameplay/generators.rs); the system early-returns when the
synergized base production is ≤ 0, contributing rate 0.  Note the factor
list it actually multiplies: tracker bonuses, moment, transcendence and
school multipliers only. -/
def generator_passive_rate (generators : GeneratorState) (synergies : SynergyState)
    (tracker : PurchaseTracker) (moments : MomentState)
    (transcendence : TranscendenceState) (school : SchoolState) : ℚ :=
  let base := synergies.total_synergized_production generators
  if base ≤ 0 then 0
  else
    base
      * (1 + tracker.efficiency_bonus)
      * tracker.wisdom_speed_bonus
      * moments.wisdom_multiplier
      * transcendence.passive_multiplier
      * school.passive_multiplier

/-- The canonical factor list of spec §4.1, stated from the spec's words:
`base_rate × (1 + efficiency_bonus) × wisdom_speed_bonus × deep_focus_mult
× moment_mult × school_mult × transcendence_mult × achievement_mult ×
challenge_mult × secondary_resource_mult`. -/
def canonical_rate (base_rate efficiency_bonus wisdom_speed_bonus deep_focus_mult
    moment_mult school_mult transcendence_mult achievement_mult challenge_mult
    secondary_resource_mult : ℚ) : ℚ :=
  base_rate * (1 + efficiency_bonus) * wisdom_speed_bonus * deep_focus_mult
    * moment_mult * school_mult * transcendence_mult * achievement_mult
    * challenge_mult * secondary_resource_mult

/-! ## Run-wisdom accumulation (src/gameplay/transcendence.rs) -/

/-- `accumulate_run_wisdom`: compares the meter's `current` against the
previous frame's value (`Local<f32>` `last_wisdom`); on a drop it adds the
meter's (current) `max_wisdom` to `run_wisdom_accumulated`.  Returns the
updated state and the new `last_wisdom`. -/
def accumulate_run_wisdom (wisdom : WisdomMeter) (t : TranscendenceState)
    (last_wisdom : ℚ) : TranscendenceState × ℚ :=
  let t' :=
    if wisdom.current < last_wisdom then
      { t with run_wisdom_accumulated := t.run_wisdom_accumulated + wisdom.max_wisdom }
    else t
  (t', wisdom.current)

/-! ## Transcend action (src/gameplay/transcendence.rs) -/

/-- `handle_transcend_click`, pressed case: no-op when `pending_insight`
is 0; otherwise bank the pending insight, count the transcendence, zero
the run accumulator and move to school selection. -/
def handle_transcend_click (t : TranscendenceState) (g : GameState) :
    TranscendenceState × GameState :=
  let gained := t.pending_insight
  if gained = 0 then (t, g)
  else
    ({ t with
        insight := t.insight + gained
        total_transcendences := t.total_transcendences + 1
        run_wisdom_accumulated := 0 },
      GameState.SchoolSelection)

/-! ## Challenge systems (src/gameplay/challenges.rs) -/

/-- `handle_challenge_begin`, pressed case for the button of `id`:
skipped when the challenge is already completed or another is active. -/
def handle_challenge_begin (c : ChallengeState) (g : GameState) (id : ChallengeId) :
    ChallengeState × GameState :=
  if c.has_completed id || c.is_active then (c, g)
  else
    ({ c with active := some { id := id, elapsed := 0, failed := false, progress := 0 } },
      GameState.Playing)

/-- One tick of `update_challenges`: advance the active challenge by `dt`,
enforce its constraint (`total_gens` generators owned; a primary click
that did not hit UI), and resolve timed completion, adding the id to the
completed set only if not already present. -/
def update_challenges (c : ChallengeState) (dt : ℚ)
    (mouseJustPressed clickingUI : Bool) (total_gens : ℕ) : ChallengeState :=
  match c.active with
  | none => c
  | some a0 =>
    if a0.failed then c
    else
      let a1 := { a0 with elapsed := a0.elapsed + dt }
      let a2 :=
        match a1.id with
        | .Silence => if 0 < total_gens then { a1 with failed := true } else a1
        | .Blindfold =>
            if mouseJustPressed && !clickingUI then { a1 with failed := true } else a1
        | .Austerity => a1
        | .Solitude => a1
      match a2.id.required_duration with
      | some duration =>
          if duration ≤ a2.elapsed && !a2.failed then
            { completed :=
                if c.has_completed a2.id then c.completed else c.completed ++ [a2.id]
              active := none }
          else { c with active := some a2 }
      | none => { c with active := some a2 }

/-! ## Persistence (src/gameplay/persistence.rs) -/

/-- `SaveData`: the flat persisted snapshot.  `Vec<ShopItemId>` round-trips
through a `HashSet` on restore, so it is modelled as a `Finset`. -/
structure SaveData where
  version : ℕ
  timestamp : ℕ
  wisdom_current : ℚ
  wisdom_max : ℚ
  truths_generated : ℕ
  focus_points : ℕ
  total_truths : ℕ
  acolyte_count : ℕ
  generators_owned : Fin 8 → ℕ
  purchased_items : Finset ShopItemId
  equipped_orb : OrbType
  insight : ℕ
  total_transcendences : ℕ
  purchased_enlightenments : List EnlightenmentId
  run_wisdom_accumulated : ℚ
  school : SchoolOfThought
  school_run_truths : ℕ
  unlocked_achievements : List AchievementId
  lifetime_truths : ℕ
  achievement_peak_afp : ℕ
  achievement_deep_focus_uses : ℕ
  achievement_run_elapsed : ℚ
  achievement_run_truths : ℕ
  shadow_count : ℕ
  shadow_stored_wisdom : ℚ
  completed_challenges : List ChallengeId
  serenity : ℚ
  curiosity : ℚ
  focus : ℚ
deriving DecidableEq

/-- The full live economy state handled by `SaveData::capture`/`restore`
(the resources passed to those functions). -/
structure LiveState where
  wisdom : WisdomMeter
  progress : ArcaneProgress
  acolytes : AcolyteState
  generators : GeneratorState
  tracker : PurchaseTracker
  equipped : OrbType
  transcendence : TranscendenceState
  school : SchoolState
  achievements : AchievementTracker
  synergies : SynergyState
  shadows : ShadowState
  challenges : ChallengeState
  resources : SecondaryResources
deriving DecidableEq

/-- `SaveData::capture` (timestamp passed in for `now_secs()`). -/
def SaveData.capture (s : LiveState) (timestamp : ℕ) : SaveData :=
  { version := 1
    timestamp := timestamp
    wisdom_current := s.wisdom.current
    wisdom_max := s.wisdom.max_wisdom
    truths_generated := s.wisdom.truths_generated
    focus_points := s.progress.focus_points
    total_truths := s.progress.total_truths
    acolyte_count := s.acolytes.count
    generators_owned := s.generators.owned
    purchased_items := s.tracker.purchased
    equipped_orb := s.equipped
    insight := s.transcendence.insight
    total_transcendences := s.transcendence.total_transcendences
    purchased_enlightenments := s.transcendence.purchased_enlightenments
    run_wisdom_accumulated := s.transcendence.run_wisdom_accumulated
    school := s.school.active
    school_run_truths := s.school.run_truths
    unlocked_achievements := s.achievements.unlocked
    lifetime_truths := s.achievements.lifetime_truths
    achievement_peak_afp := s.achievements.peak_afp
    achievement_deep_focus_uses := s.achievements.deep_focus_uses
    achievement_run_elapsed := s.achievements.run_elapsed
    achievement_run_truths := s.achievements.run_truths
    shadow_count := s.shadows.count
    shadow_stored_wisdom := s.shadows.stored_wisdom
    completed_challenges := s.challenges.completed
    serenity := s.resources.serenity
    curiosity := s.resources.curiosity
    focus := s.resources.focus }

/-- `SaveData::restore`, applied to the live state `live` it mutates:
sets each live field from the snapshot (fields the function does not
touch keep `live`'s values), recalculates the purchase-bonus aggregate
via `tracker.recalculate(equipped_orb)`, clears any active challenge and
recomputes the synergy cache from the restored generators. -/
def SaveData.restore (sv : SaveData) (live : LiveState) : LiveState :=
  { wisdom :=
      { current := sv.wisdom_current
        max_wisdom := sv.wisdom_max
        truths_generated := sv.truths_generated }
    progress :=
      { live.progress with
          focus_points := sv.focus_points
          total_truths := sv.total_truths }
    acolytes := { live.acolytes with count := sv.acolyte_count }
    generators := { owned := sv.generators_owned }
    tracker := PurchaseTracker.recalculate sv.purchased_items sv.equipped_orb
    equipped := sv.equipped_orb
    transcendence :=
      { insight := sv.insight
        total_transcendences := sv.total_transcendences
        purchased_enlightenments := sv.purchased_enlightenments
        run_wisdom_accumulated := sv.run_wisdom_accumulated }
    school := { active := sv.school, run_truths := sv.school_run_truths }
    achievements :=
      { live.achievements with
          unlocked := sv.unlocked_achievements
          lifetime_truths := sv.lifetime_truths
          peak_afp := sv.achievement_peak_afp
          deep_focus_uses := sv.achievement_deep_focus_uses
          run_elapsed := sv.achievement_run_elapsed
          run_truths := sv.achievement_run_truths }
    synergies := SynergyState.recalculate { owned := sv.generators_owned }
    shadows :=
      { live.shadows with
          count := sv.shadow_count
          stored_wisdom := sv.shadow_stored_wisdom }
    challenges := { completed := sv.completed_challenges, active := none }
    resources :=
      { live.resources with
          serenity := sv.serenity
          curiosity := sv.curiosity
          focus := sv.focus } }

/-! ## Offline progression (src/gameplay/persistence.rs) -/

/-- `MAX_OFFLINE_SECS` (12 hours). -/
def MAX_OFFLINE_SECS : ℚ := 12 * 60 * 60

/-- `OFFLINE_RATE` (50%). -/
def OFFLINE_RATE : ℚ := 1/2

/-- `OfflineGains`. -/
structure OfflineGains where
  wisdom_gained : ℚ
  truths_earned : ℕ
  afp_earned : ℕ
  elapsed_secs : ℕ
deriving DecidableEq

/-- The truth-simulation loop of `calculate_offline_gains`, as a
fuel-indexed recursion (the Rust loop increments `truths` on every
iteration that recurses and breaks past 1000, so any fuel ≥ 1002 is
enough; `offline_fuel` below provides it).  State: accumulated wisdom,
current threshold, remaining offline wisdom, truths so far. -/
def offlineLoop : ℕ → ℚ → ℚ → ℚ → ℕ → ℚ × ℕ
  | 0, wisdom_acc, _, _, truths => (wisdom_acc, truths)
  | fuel + 1, wisdom_acc, max_wisdom, remaining, truths =>
    if 0 < remaining then
      let needed := max_wisdom - wisdom_acc
      if needed ≤ 0 ∨ remaining < needed then
        (wisdom_acc + remaining, truths)
      else
        let truths' := truths + 1
        if 1000 < truths' then (0, truths')
        else offlineLoop fuel 0 (max_wisdom * (11/10)) (remaining - needed) truths'
    else
      (wisdom_acc, truths)

/-- Fuel that dominates the Rust loop's hard cap of 1000 truths. -/
def offline_fuel : ℕ := 1002

/-- The approximate saved passive rate used by `calculate_offline_gains`:
generator base production (per-index table, counting only owned tiers)
plus the acolyte rate, with no synergy/milestone/upgrade bonuses. -/
def SaveData.total_passive (sv : SaveData) : ℚ :=
  (∑ i : Fin 8, if 0 < sv.generators_owned i then base_prod_at i * sv.generators_owned i else 0)
    + (sv.acolyte_count : ℚ) * (2/10)

/-- `calculate_offline_gains` (with `now_secs()` passed in as `now`):
`None` when no time passed, when under the 60-second minimum, or when the
saved passive rate is ≤ 0; otherwise simulates the clamped elapsed window
at the 50% offline rate against the saved meter with the default 1.1
scaling. -/
def calculate_offline_gains (sv : SaveData) (now : ℕ) : Option OfflineGains :=
  if now ≤ sv.timestamp then none
  else
    let raw_elapsed : ℚ := ((now - sv.timestamp : ℕ) : ℚ)
    if raw_elapsed < 60 then none
    else
      let elapsed := min raw_elapsed MAX_OFFLINE_SECS
      let total_passive := sv.total_passive
      if total_passive ≤ 0 then none
      else
        let wisdom_per_sec := total_passive * OFFLINE_RATE
        let total_wisdom := wisdom_per_sec * elapsed
        let result := offlineLoop offline_fuel sv.wisdom_current sv.wisdom_max total_wisdom 0
        some
          { wisdom_gained := result.1 - sv.wisdom_current
            truths_earned := result.2
            afp_earned := result.2 * 10
            elapsed_secs := min (now - sv.timestamp) 43200 }

/-! ## Spec-side reference definitions and concrete fixtures -/

/-- The milestone step function as worded in the claim: 1.0 below 5 units,
then 1.5, 2.0, 3.0, 5.0 at the 5/10/25/50 breakpoints. -/
def milestone_step_spec (n : ℕ) : ℚ :=
  if n < 5 then 1
  else if n < 10 then 3/2
  else if n < 25 then 2
  else if n < 50 then 3
  else 5

/-- Closed form of the scanning loop `milestone_multiplier`. -/
theorem milestone_multiplier_closed (n : ℕ) :
    milestone_multiplier n = milestone_step_spec n := by
  simp only [milestone_multiplier, MILESTONES, milestoneScan, milestone_step_spec]
  split_ifs <;> first | rfl | omega

/-- Doc for claims: the milestone closed form is monotone. -/
theorem milestone_step_spec_mono {n1 n2 : ℕ} (h : n1 ≤ n2) :
    milestone_step_spec n1 ≤ milestone_step_spec n2 := by
  unfold milestone_step_spec
  split_ifs <;> first | (exfalso; omega) | norm_num

/-! ## Claims -/

/-- C7: for every owned count `n` the milestone multiplier equals the
step function (1.0 below 5; 1.5, 2.0, 3.0, 5.0 at the 5/10/25/50
breakpoints, highest reached applies, scanning in ascending order and
stopping at the first unmet breakpoint), and the multiplier is monotone
in the owned count. -/
theorem claim_C7 :
    (∀ n, milestone_multiplier n = milestone_step_spec n) ∧
    (∀ n1 n2, n1 < n2 → milestone_multiplier n1 ≤ milestone_multiplier n2) := by
  refine ⟨milestone_multiplier_closed, fun n1 n2 h => ?_⟩
  rw [milestone_multiplier_closed, milestone_multiplier_closed]
  exact milestone_step_spec_mono h.le

/-- C7 witness: concrete evaluation of both conjuncts. -/
theorem claim_C7_witness :
    milestone_multiplier 7 = milestone_step_spec 7 ∧
    milestone_multiplier 7 ≤ milestone_multiplier 12 :=
  ⟨claim_C7.1 7, claim_C7.2 7 12 (by norm_num)⟩

/-- C8: for every tier, owned count and discount, the next-unit cost is
`ceil(base_cost × 1.15^owned × (1 − discount))` floored at 1; concretely a
tier with base cost 50 and no discount costs exactly 50 at owned = 0 and
exactly `ceil(50 × 1.15) = 58` at owned = 1. -/
theorem claim_C8 :
    (∀ (g : GeneratorType) (n : ℕ) (d : ℚ),
      g.next_cost_discounted n d = max 1 ⌈(g.base_cost : ℚ) * (115/100) ^ n * (1 - d)⌉) ∧
    GeneratorType.Candle.next_cost_discounted 0 0 = 50 ∧
    GeneratorType.Candle.next_cost_discounted 1 0 = 58 := by
  refine ⟨fun g n d => rfl, ?_, ?_⟩
  · show max 1 ⌈(50 : ℚ) * (115/100) ^ 0 * (1 - 0)⌉ = 50
    norm_num
  · show max 1 ⌈(50 : ℚ) * (115/100) ^ 1 * (1 - 0)⌉ = 58
    rw [show (50 : ℚ) * (115/100) ^ 1 * (1 - 0) = 115/2 by norm_num]
    rw [show ⌈(115/2 : ℚ)⌉ = 58 by rw [Int.ceil_eq_iff] <;> norm_num]
    norm_num

/-- C2: one truth-generation resolution step on a meter holding
`current = max_wisdom + X` (with `0 ≤ X < max_wisdom × growth`) increments
`truths_generated` by exactly 1, carries the overflow over
(`current = X`), and multiplies `max_wisdom` by the active scaling
factor. -/
theorem claim_C2 (maxW X scaling : ℚ) (t : ℕ)
    (hmax : 0 < maxW) (hX : 0 ≤ X) (hgrow : X < maxW * scaling) :
    WisdomMeter.resolveStep ⟨maxW + X, maxW, t⟩ scaling =
      ⟨X, maxW * scaling, t + 1⟩ := by
  unfold WisdomMeter.resolveStep
  rw [if_pos (by simpa using hX)]
  simp

/-- C2 witness: a meter at 13/10 resolves to 3/11 with one more truth. -/
theorem claim_C2_witness :
    WisdomMeter.resolveStep ⟨13, 10, 0⟩ (11/10) = ⟨3, 11, 1⟩ := by
  have h := claim_C2 10 3 (11/10) 0 (by norm_num) (by norm_num) (by norm_num)
  norm_num at h ⊢
  exact h

/-- C5: `calculate_offline_gains` returns no gains when the saved passive
rate is zero; returns no gains when the elapsed time is under the
60-second minimum; and for any elapsed time above the 12-hour cap it
returns exactly the result of an elapsed time of exactly 12 hours. -/
theorem claim_C5 (sv : SaveData) (now : ℕ) :
    (sv.total_passive = 0 → calculate_offline_gains sv now = none) ∧
    (now < sv.timestamp + 60 → calculate_offline_gains sv now = none) ∧
    (sv.timestamp + 43200 ≤ now →
      calculate_offline_gains sv now = calculate_offline_gains sv (sv.timestamp + 43200)) := by
  refine ⟨fun h0 => ?_, fun hmin => ?_, fun hcap => ?_⟩
  · simp only [calculate_offline_gains]
    split_ifs with h1 h2 h3
    · rfl
    · rfl
    · rfl
    · exact absurd (le_of_eq h0) h3
  · simp only [calculate_offline_gains]
    by_cases h1 : now ≤ sv.timestamp
    · rw [if_pos h1]
    · rw [if_neg h1,
        if_pos (show ((now - sv.timestamp : ℕ) : ℚ) < 60 from by
          exact_mod_cast (show now - sv.timestamp < 60 by omega))]
  · have h1 : ¬ now ≤ sv.timestamp := by omega
    have h1' : ¬ sv.timestamp + 43200 ≤ sv.timestamp := by omega
    have hraw1 : (43200 : ℚ) ≤ ((now - sv.timestamp : ℕ) : ℚ) := by
      have : 43200 ≤ now - sv.timestamp := by omega
      exact_mod_cast this
    have hraw2 : ((sv.timestamp + 43200 - sv.timestamp : ℕ) : ℚ) = 43200 := by
      norm_num
    have hM : MAX_OFFLINE_SECS = 43200 := by norm_num [MAX_OFFLINE_SECS]
    simp only [calculate_offline_gains, hraw2, hM]
    rw [if_neg h1, if_neg h1']
    rw [if_neg (by linarith : ¬ ((now - sv.timestamp : ℕ) : ℚ) < 60)]
    rw [if_neg (by norm_num : ¬ (43200 : ℚ) < 60)]
    rw [min_eq_right hraw1, min_eq_left (le_refl (43200 : ℚ))]
    rw [show sv.timestamp + 43200 - sv.timestamp = 43200 by omega]
    rw [show min (now - sv.timestamp) 43200 = 43200 by omega]
    simp

/-- A populated save with no generators and no acolytes (zero passive
rate), used as a C5 fixture. -/
def offlineSaveZero : SaveData :=
  { version := 1, timestamp := 1000, wisdom_current := 2, wisdom_max := 10
    truths_generated := 3, focus_points := 40, total_truths := 3
    acolyte_count := 0, generators_owned := fun _ => 0, purchased_items := ∅
    equipped_orb := .Crystal, insight := 0, total_transcendences := 0
    purchased_enlightenments := [], run_wisdom_accumulated := 30
    school := .NoSchool, school_run_truths := 0, unlocked_achievements := []
    lifetime_truths := 3, achievement_peak_afp := 40
    achievement_deep_focus_uses := 0, achievement_run_elapsed := 100
    achievement_run_truths := 3, shadow_count := 0, shadow_stored_wisdom := 0
    completed_challenges := [], serenity := 0, curiosity := 0, focus := 0 }

/-- The same save with one acolyte (passive rate 0.2), used as a C5
fixture. -/
def offlineSaveAcolyte : SaveData :=
  { offlineSaveZero with acolyte_count := 1 }

/-- C5 witness: concrete saves exercising all three conjuncts. -/
theorem claim_C5_witness :
    calculate_offline_gains offlineSaveZero 5000 = none ∧
    calculate_offline_gains offlineSaveAcolyte 1030 = none ∧
    calculate_offline_gains offlineSaveAcolyte 100000 =
      calculate_offline_gains offlineSaveAcolyte (offlineSaveAcolyte.timestamp + 43200) := by
  refine ⟨(claim_C5 offlineSaveZero 5000).1 ?_, (claim_C5 offlineSaveAcolyte 1030).2.1 ?_,
    (claim_C5 offlineSaveAcolyte 100000).2.2 ?_⟩
  · simp [offlineSaveZero, SaveData.total_passive]
  · decide
  · decide

/-- For a nonnegative real, the natural floor of its square root is the
natural square root of its natural floor (bridges the executable
`pending_insight` to the spec's `floor(sqrt(...))`). -/
theorem natFloor_sqrt_eq_sqrt_natFloor (x : ℝ) (hx : 0 ≤ x) :
    ⌊Real.sqrt x⌋₊ = Nat.sqrt ⌊x⌋₊ := by
  rw [Nat.floor_eq_iff (Real.sqrt_nonneg x)]
  constructor
  · calc (Nat.sqrt ⌊x⌋₊ : ℝ) ≤ Real.sqrt (⌊x⌋₊ : ℝ) := Real.nat_sqrt_le_real_sqrt
      _ ≤ Real.sqrt x := Real.sqrt_le_sqrt (Nat.floor_le hx)
  · rw [Real.sqrt_lt' (by positivity)]
    calc x < ⌊x⌋₊ + 1 := Nat.lt_floor_add_one x
      _ ≤ ((Nat.sqrt ⌊x⌋₊ + 1 : ℕ) : ℝ) ^ 2 := by
          rw [show ((Nat.sqrt ⌊x⌋₊ + 1 : ℕ) : ℝ) ^ 2 = ((Nat.sqrt ⌊x⌋₊ + 1) * (Nat.sqrt ⌊x⌋₊ + 1) : ℕ) by push_cast; ring]
          exact_mod_cast Nat.succ_le_of_lt (Nat.lt_succ_sqrt ⌊x⌋₊)
      _ = ((Nat.sqrt ⌊x⌋₊ : ℝ) + 1) ^ 2 := by push_cast; ring

/-- The natural floor of a nonnegative rational is unchanged by casting
it to the reals. -/
theorem natFloor_ratCast (q : ℚ) (hq : 0 ≤ q) : ⌊(q : ℝ)⌋₊ = ⌊q⌋₊ := by
  have hqr : (0 : ℝ) ≤ (q : ℝ) := by exact_mod_cast hq
  have h : ((⌊(q : ℝ)⌋₊ : ℤ)) = ((⌊q⌋₊ : ℤ)) := by
    rw [Int.natCast_floor_eq_floor hqr, Int.natCast_floor_eq_floor hq, Rat.floor_cast]
  exact_mod_cast h

/-- C6: `pending_insight` is `floor(sqrt(run_wisdom_accumulated / 1000))`;
the transcend click is a no-op when it is zero; and when it is positive
the click adds exactly `pending_insight` to the permanent insight,
increments `total_transcendences` by one, zeroes
`run_wisdom_accumulated`, keeps `purchased_enlightenments`, and moves to
the school-selection state (the handler mutates no other run state: its
only writes are `TranscendenceState` and the next game state). -/
theorem claim_C6 (t : TranscendenceState) (g : GameState) :
    (0 ≤ t.run_wisdom_accumulated →
      t.pending_insight = ⌊Real.sqrt ((t.run_wisdom_accumulated : ℝ) / 1000)⌋₊) ∧
    (t.pending_insight = 0 → handle_transcend_click t g = (t, g)) ∧
    (0 < t.pending_insight →
      handle_transcend_click t g =
        ({ insight := t.insight + t.pending_insight
           total_transcendences := t.total_transcendences + 1
           purchased_enlightenments := t.purchased_enlightenments
           run_wisdom_accumulated := 0 }, GameState.SchoolSelection)) := by
  refine ⟨fun hnn => ?_, fun h0 => ?_, fun hpos => ?_⟩
  · rw [natFloor_sqrt_eq_sqrt_natFloor _ (by positivity)]
    rw [show ((t.run_wisdom_accumulated : ℝ) / 1000) = ((t.run_wisdom_accumulated / 1000 : ℚ) : ℝ) by push_cast; ring]
    rw [natFloor_ratCast _ (by positivity)]
    rfl
  · unfold handle_transcend_click
    rw [if_pos h0]
  · unfold handle_transcend_click
    rw [if_neg (Nat.pos_iff_ne_zero.mp hpos)]

/-- A transcendence state with 5000 run wisdom (pending insight
`floor(sqrt(5)) = 2`), used as a C6 fixture. -/
def transcendFixture : TranscendenceState :=
  { insight := 3, total_transcendences := 1
    purchased_enlightenments := [.DeepRoots], run_wisdom_accumulated := 5000 }

/-- C6 witness: concrete evaluation of all three conjuncts. -/
theorem claim_C6_witness :
    transcendFixture.pending_insight =
      ⌊Real.sqrt ((transcendFixture.run_wisdom_accumulated : ℝ) / 1000)⌋₊ ∧
    handle_transcend_click TranscendenceState.default GameState.TranscendenceOpen =
      (TranscendenceState.default, GameState.TranscendenceOpen) ∧
    handle_transcend_click transcendFixture GameState.TranscendenceOpen =
      ({ insight := transcendFixture.insight + transcendFixture.pending_insight
         total_transcendences := transcendFixture.total_transcendences + 1
         purchased_enlightenments := transcendFixture.purchased_enlightenments
         run_wisdom_accumulated := 0 }, GameState.SchoolSelection) :=
  ⟨(claim_C6 transcendFixture .TranscendenceOpen).1 (by norm_num [transcendFixture]),
   (claim_C6 TranscendenceState.default .TranscendenceOpen).2.1 (by
      show Nat.sqrt ⌊(0 : ℚ)/1000⌋₊ = 0
      norm_num),
   (claim_C6 transcendFixture .TranscendenceOpen).2.2 (by
      show 0 < Nat.sqrt ⌊(5000 : ℚ)/1000⌋₊
      rw [show (5000 : ℚ)/1000 = 5 by norm_num]
      rw [show ⌊(5 : ℚ)⌋₊ = 5 by norm_num]
      exact Nat.sqrt_pos.mpr (by norm_num))⟩

/-- A generator state owning exactly one Candle, used as a C1 fixture
(synergized base production 0.1, no synergy or milestone bonus active). -/
def oneCandle : GeneratorState :=
  { owned := fun i => if i = 0 then 1 else 0 }

/-- C1: evaluation of the three wisdom-granting paths at states whose
only non-unit canonical factor is the challenge multiplier.  The click
and acolyte paths compose the full canonical factor list (including the
challenge, achievement and focus multipliers), but the generator passive
path grants `0.1` wisdom/s where the canonical product of spec §4.1 is
`0.1 × 1.1 = 0.11`: the achievement, challenge and secondary-resource
factors are omitted from `passive_generator_wisdom`. -/
theorem claim_C1 :
    click_gain PurchaseTracker.default ⟨0, false, 0, 0⟩ ⟨none⟩ TranscendenceState.default
        ⟨.NoSchool, 0⟩ AchievementTracker.default ⟨[.Austerity], none⟩
        SecondaryResources.default
      = canonical_rate 1 0 1 1 1 1 1 1 (27/25) 1 ∧
    acolyte_passive_rate ⟨1, 2/10, 20, 115/100⟩ PurchaseTracker.default ⟨none⟩
        TranscendenceState.default ⟨.NoSchool, 0⟩ AchievementTracker.default
        ⟨[.Blindfold], none⟩ SecondaryResources.default
      = canonical_rate (2/10) 0 1 1 1 1 1 1 (11/10) 1 ∧
    generator_passive_rate oneCandle (SynergyState.recalculate oneCandle)
        PurchaseTracker.default ⟨none⟩ TranscendenceState.default ⟨.NoSchool, 0⟩
      = 1/10 ∧
    canonical_rate (1/10) 0 1 1 1 1 1 1 (11/10) 1 = 11/100 ∧
    (1/10 : ℚ) ≠ 11/100 := by
  refine ⟨?_, ?_, ?_, by norm_num [canonical_rate], by norm_num⟩
  · norm_num +decide [click_gain, canonical_rate, PurchaseTracker.default,
      TranscendenceState.default, AchievementTracker.default, SecondaryResources.default,
      MomentState.click_multiplier, TranscendenceState.click_multiplier, TranscendenceState.has,
      SchoolState.click_multiplier, AchievementTracker.wisdom_multiplier,
      ChallengeState.click_multiplier, ChallengeState.has_completed,
      SecondaryResources.focus_mult]
  · norm_num +decide [acolyte_passive_rate, canonical_rate, AcolyteState.passive_rate,
      PurchaseTracker.default, TranscendenceState.default, AchievementTracker.default,
      SecondaryResources.default, MomentState.wisdom_multiplier,
      TranscendenceState.passive_multiplier, TranscendenceState.has,
      SchoolState.passive_multiplier, AchievementTracker.wisdom_multiplier,
      ChallengeState.passive_multiplier, ChallengeState.has_completed,
      SecondaryResources.focus_mult]
  · norm_num +decide [generator_passive_rate, oneCandle, SynergyState.recalculate,
      SynergyState.total_synergized_production, SYNERGY_TABLE, GeneratorType.all,
      GeneratorState.count, GeneratorType.base_production, GeneratorType.index,
      milestone_multiplier, MILESTONES, milestoneScan, PurchaseTracker.default,
      TranscendenceState.default, MomentState.wisdom_multiplier,
      TranscendenceState.passive_multiplier, TranscendenceState.has,
      SchoolState.passive_multiplier]

/-- C4: after a truth-generation transition consumes a threshold of 10
(scaling 1.1, so the post-transition threshold is 11), the
`accumulate_run_wisdom` system observes the drop in `current` and adds
the meter's *current* `max_wisdom` — 11, the enlarged post-transition
threshold — to `run_wisdom_accumulated`, not the consumed pre-transition
threshold 10. -/
theorem claim_C4 :
    WisdomMeter.resolveStep ⟨10, 10, 0⟩ (11/10) = ⟨0, 11, 1⟩ ∧
    (accumulate_run_wisdom (WisdomMeter.resolveStep ⟨10, 10, 0⟩ (11/10))
        TranscendenceState.default 10).1.run_wisdom_accumulated = 11 ∧
    (11 : ℚ) ≠ 10 := by
  refine ⟨?_, ?_, by norm_num⟩ <;>
    norm_num [WisdomMeter.resolveStep, accumulate_run_wisdom, TranscendenceState.default]

/-- Modelled from the spec: the default wisdom meter 0/10 with no truths
(§8's starting scenario "wisdom 0/10"); its `Default` impl lives in the
missing `src/gameplay/wisdom.rs`. -/
def WisdomMeter.default : WisdomMeter :=
  { current := 0, max_wisdom := 10, truths_generated := 0 }

/-- The freshly initialized live state (each component's `Default`), the
restore target at startup. -/
def LiveState.default : LiveState :=
  { wisdom := WisdomMeter.default
    progress := ArcaneProgress.default
    acolytes := AcolyteState.default
    generators := { owned := fun _ => 0 }
    tracker := PurchaseTracker.default
    equipped := .Crystal
    transcendence := TranscendenceState.default
    school := { active := .NoSchool, run_truths := 0 }
    achievements := AchievementTracker.default
    synergies := SynergyState.default
    shadows := { count := 0, max_shadows := 5, stored_wisdom := 0
                 drain_per_shadow := 1/10, dispel_multiplier := 11/10 }
    challenges := ChallengeState.default
    resources := SecondaryResources.default }

/-- A populated live state: one Candle, two acolytes, a purchased snack,
the Obsidian orb equipped and unlocked, an enlightenment, a school, an
achievement, a completed challenge, shadows, and an active focus boost. -/
def popLive : LiveState :=
  { wisdom := { current := 5, max_wisdom := 11, truths_generated := 1 }
    progress := { focus_points := 25, total_truths := 4
                  unlocked_orbs := [.Crystal, .Obsidian] }
    acolytes := { AcolyteState.default with count := 2 }
    generators := oneCandle
    tracker := PurchaseTracker.recalculate {ShopItemId.ArcaneBiscuit} .Obsidian
    equipped := .Obsidian
    transcendence := { insight := 1, total_transcendences := 1
                       purchased_enlightenments := [.DeepRoots]
                       run_wisdom_accumulated := 2000 }
    school := { active := .Stoicism, run_truths := 2 }
    achievements := { AchievementTracker.default with
                        unlocked := [.FirstTruth], lifetime_truths := 4, run_truths := 1 }
    synergies := SynergyState.recalculate oneCandle
    shadows := { count := 1, max_shadows := 5, stored_wisdom := 3
                 drain_per_shadow := 1/10, dispel_multiplier := 11/10 }
    challenges := { completed := [.Silence], active := none }
    resources := { SecondaryResources.default with
                     serenity := 5, curiosity := 2, focus := 50, focus_active := true } }

/-- C3 counterexample: restoring the capture of `popLive` onto the
startup default state loses `unlocked_orbs` (the Obsidian unlock is gone)
and `focus_active` — neither field is part of `SaveData` — so the round
trip is not the identity on the §3 field list. -/
theorem claim_C3_counterexample :
    ((SaveData.capture popLive 5).restore LiveState.default).progress.unlocked_orbs
      = [.Crystal] ∧
    popLive.progress.unlocked_orbs = [.Crystal, .Obsidian] ∧
    ((SaveData.capture popLive 5).restore LiveState.default).resources.focus_active = false ∧
    popLive.resources.focus_active = true ∧
    (SaveData.capture popLive 5).restore LiveState.default ≠ popLive := by
  refine ⟨rfl, rfl, rfl, rfl, fun h => ?_⟩
  have horbs := congrArg (fun s => s.progress.unlocked_orbs) h
  simp only at horbs
  rw [show ((SaveData.capture popLive 5).restore LiveState.default).progress.unlocked_orbs
      = [.Crystal] from rfl] at horbs
  rw [show popLive.progress.unlocked_orbs = [.Crystal, .Obsidian] from rfl] at horbs
  exact absurd horbs (by simp)

/-- C3 (amended): the round trip `restore (capture s) d` restores every
field that `SaveData` persists to its captured value, recomputes the
derived caches (purchase-bonus aggregate and synergy cache) from the
restored data instead of trusting persisted values, and clears the
active challenge; the fields absent from `SaveData` —
`ArcaneProgress.unlocked_orbs` and `SecondaryResources.focus_active`
(plus the static config fields) — keep the restore target's values. -/
theorem claim_C3 (s d : LiveState) (ts : ℕ) :
    ((SaveData.capture s ts).restore d).wisdom = s.wisdom ∧
    ((SaveData.capture s ts).restore d).progress.focus_points = s.progress.focus_points ∧
    ((SaveData.capture s ts).restore d).progress.total_truths = s.progress.total_truths ∧
    ((SaveData.capture s ts).restore d).progress.unlocked_orbs = d.progress.unlocked_orbs ∧
    ((SaveData.capture s ts).restore d).acolytes.count = s.acolytes.count ∧
    ((SaveData.capture s ts).restore d).generators = s.generators ∧
    ((SaveData.capture s ts).restore d).tracker
      = PurchaseTracker.recalculate s.tracker.purchased s.equipped ∧
    ((SaveData.capture s ts).restore d).equipped = s.equipped ∧
    ((SaveData.capture s ts).restore d).transcendence = s.transcendence ∧
    ((SaveData.capture s ts).restore d).school = s.school ∧
    ((SaveData.capture s ts).restore d).achievements.unlocked = s.achievements.unlocked ∧
    ((SaveData.capture s ts).restore d).achievements.lifetime_truths
      = s.achievements.lifetime_truths ∧
    ((SaveData.capture s ts).restore d).achievements.peak_afp = s.achievements.peak_afp ∧
    ((SaveData.capture s ts).restore d).achievements.deep_focus_uses
      = s.achievements.deep_focus_uses ∧
    ((SaveData.capture s ts).restore d).achievements.run_elapsed = s.achievements.run_elapsed ∧
    ((SaveData.capture s ts).restore d).achievements.run_truths = s.achievements.run_truths ∧
    ((SaveData.capture s ts).restore d).synergies = SynergyState.recalculate s.generators ∧
    ((SaveData.capture s ts).restore d).shadows.count = s.shadows.count ∧
    ((SaveData.capture s ts).restore d).shadows.stored_wisdom = s.shadows.stored_wisdom ∧
    ((SaveData.capture s ts).restore d).challenges
      = { completed := s.challenges.completed, active := none } ∧
    ((SaveData.capture s ts).restore d).resources.serenity = s.resources.serenity ∧
    ((SaveData.capture s ts).restore d).resources.curiosity = s.resources.curiosity ∧
    ((SaveData.capture s ts).restore d).resources.focus = s.resources.focus ∧
    ((SaveData.capture s ts).restore d).resources.focus_active = d.resources.focus_active := by
  refine ⟨rfl, rfl, rfl, rfl, rfl, rfl, rfl, rfl, rfl, rfl, rfl, rfl,
    rfl, rfl, rfl, rfl, rfl, rfl, rfl, rfl, rfl, rfl, rfl, rfl⟩

/-- C10: for every snapshot and every restore target, restoring never
resurrects an in-progress challenge — the restored challenge state has
`active = None` — and the only challenge data that persists is the
permanent completed-set. -/
theorem claim_C10 (sv : SaveData) (live : LiveState) (s : LiveState) (ts : ℕ) :
    (sv.restore live).challenges
      = { completed := sv.completed_challenges, active := none } ∧
    (SaveData.capture s ts).completed_challenges = s.challenges.completed :=
  ⟨rfl, rfl⟩

/-- The challenge passive multiplier only reads the completed-set. -/
theorem ChallengeState.passive_multiplier_congr {c1 c2 : ChallengeState}
    (h : c1.completed = c2.completed) :
    c1.passive_multiplier = c2.passive_multiplier := by
  simp [ChallengeState.passive_multiplier, ChallengeState.has_completed, h]

/-- C9 counterexample: with the Silence challenge already in the
completed-set, clicking its begin button is a no-op — the challenge
cannot be started (re-run) again: no active challenge is created and the
UI state does not return to Playing. -/
theorem claim_C9_counterexample :
    handle_challenge_begin { completed := [.Silence], active := none }
        GameState.ChallengesOpen .Silence
      = ({ completed := [.Silence], active := none }, GameState.ChallengesOpen) ∧
    (handle_challenge_begin { completed := [.Silence], active := none }
        GameState.ChallengesOpen .Silence).1.active = none := by
  constructor <;> rfl

/-- C9 (amended): a challenge whose id is in the permanent completed-set
cannot be started again (`handle_challenge_begin` skips it and changes
nothing); and if a completed challenge is somehow active again, a repeat
completion in `update_challenges` adds nothing to the completed-set and
leaves the tracker's permanent bonus unchanged. -/
theorem claim_C9 (c : ChallengeState) (g : GameState) (id : ChallengeId)
    (dt : ℚ) (m u : Bool) (gens : ℕ) :
    (c.has_completed id = true → handle_challenge_begin c g id = (c, g)) ∧
    ((∃ a, c.active = some a ∧ c.has_completed a.id = true) →
      (update_challenges c dt m u gens).completed = c.completed ∧
      (update_challenges c dt m u gens).passive_multiplier = c.passive_multiplier) := by
  refine ⟨fun h => ?_, fun hex => ?_⟩
  · simp [handle_challenge_begin, h]
  · obtain ⟨a, ha, hac⟩ := hex
    have key : (update_challenges c dt m u gens).completed = c.completed := by
      unfold update_challenges
      rw [ha]
      dsimp only
      by_cases hf : a.failed
      · rw [if_pos hf]
      · rw [if_neg hf]
        cases hid : a.id <;> rw [hid] at hac <;>
          simp only [ChallengeId.required_duration] <;>
          split_ifs <;> simp_all <;> (try split_ifs) <;> rfl
    exact ⟨key, ChallengeState.passive_multiplier_congr key⟩

/-- C9 witness: the Silence challenge, already completed, can neither be
re-begun nor, when forced active and run to its timer, produce a second
completed-set entry or change the bonus. -/
theorem claim_C9_witness :
    handle_challenge_begin { completed := [.Silence], active := none }
        GameState.Playing .Silence
      = ({ completed := [.Silence], active := none }, GameState.Playing) ∧
    (update_challenges
        { completed := [.Silence], active := some ⟨.Silence, 590, false, 0⟩ }
        20 false false 0).completed = [.Silence] ∧
    (update_challenges
        { completed := [.Silence], active := some ⟨.Silence, 590, false, 0⟩ }
        20 false false 0).passive_multiplier
      = ChallengeState.passive_multiplier
          { completed := [.Silence], active := some ⟨.Silence, 590, false, 0⟩ } := by
  refine ⟨(claim_C9 { completed := [.Silence], active := none }
      GameState.Playing .Silence 0 false false 0).1 (by decide), ?_, ?_⟩
  · exact (claim_C9 { completed := [.Silence], active := some ⟨.Silence, 590, false, 0⟩ }
      GameState.Playing .Silence 20 false false 0).2 ⟨_, rfl, by decide⟩ |>.1
  · exact (claim_C9 { completed := [.Silence], active := some ⟨.Silence, 590, false, 0⟩ }
      GameState.Playing .Silence 20 false false 0).2 ⟨_, rfl, by decide⟩ |>.2

end Orb
